import Mathlib

/-!
Verification development for the distrobox backup tool (src/main.go).
The Go source is embedded shallowly: pure string processing becomes Lean
functions on String (via List Char primitives, so that everything is
kernel-executable), and each workflow handler becomes a function from the
results of its external commands and user interactions to the list of
observable effects it performs, in source order. External commands,
filesystem tests and user input are parameters; log lines record the
argument passed to the logError, logWarning, logInfo and logSuccess
helpers, while raw prompt Printf calls of the presentation layer are not
part of the effect trace.
-/

namespace DBX

/-- Whether a character is whitespace for Go unicode.IsSpace, restricted to
the Latin-1 range that the Go fast path tests; the rarely seen Unicode Zs
spaces above U+00FF are omitted from the model. -/
def goIsSpace (c : Char) : Bool :=
  c = ' ' || c = '\t' || c = '\n' || c = '\x0B' || c = '\x0C' || c = '\r' ||
  c = '\x85' || c = '\xA0'

/-- Whether the pattern occurs at the start of the list (Go strings.HasPrefix
on the rune level). -/
def startsWithList : List Char → List Char → Bool
  | [], _ => true
  | _ :: _, [] => false
  | a :: as, b :: bs => a = b && startsWithList as bs

/-- Splits around the first occurrence of sep: some (before, after), or none
when sep does not occur. Shared primitive for the embeddings of Go
strings.Contains, strings.SplitN with limit 2, and strings.Split; all call
sites in the source use a nonempty separator. -/
def firstSplit (sep : List Char) : List Char → Option (List Char × List Char)
  | [] => if sep.isEmpty then some ([], []) else none
  | c :: rest =>
    if startsWithList sep (c :: rest) then some ([], (c :: rest).drop sep.length)
    else
      match firstSplit sep rest with
      | some (p, q) => some (c :: p, q)
      | none => none

/-- Go strings.Contains: whether sub occurs somewhere in s. -/
def goContains (s sub : String) : Bool :=
  (firstSplit sub.toList s.toList).isSome

/-- Go strings.SplitN with limit 2: at most two fields, the second being
everything after the first occurrence of the separator. -/
def goSplitN2 (s sep : String) : List String :=
  match firstSplit sep.toList s.toList with
  | none => [s]
  | some (p, q) => [String.mk p, String.mk q]

/-- Worker for goSplit; the fuel only bounds recursion depth and is never
exhausted at the call site, where it starts above the length of the input. -/
def goSplitAux (sep : List Char) : Nat → List Char → List (List Char)
  | 0, s => [s]
  | fuel + 1, s =>
    match firstSplit sep s with
    | none => [s]
    | some (p, q) => p :: goSplitAux sep fuel q

/-- Go strings.Split on every occurrence of a nonempty separator. -/
def goSplit (s sep : String) : List String :=
  (goSplitAux sep.toList (s.toList.length + 1) s.toList).map String.mk

/-- Go strings.TrimSpace: drop whitespace from both ends. -/
def goTrim (s : String) : String :=
  String.mk (((s.toList.dropWhile goIsSpace).reverse.dropWhile goIsSpace).reverse)

/-- The Container record of src/main.go lines 34-38. -/
structure Container where
  name : String
  id : String
  image : String
deriving DecidableEq

/-- The row loop of getContainers (src/main.go 613-627): rows without the
pipe delimiter and rows containing the header tokens ID or NAME are
skipped; the rest are split on the pipe and kept only when at least four
fields are present, taking id, name and image from fields 0, 1 and 3. -/
def parseLines : List String → List Container
  | [] => []
  | line :: rest =>
    if !goContains line "|" || goContains line "ID" || goContains line "NAME" then
      parseLines rest
    else
      let parts := goSplit line "|"
      if parts.length ≥ 4 then
        { id := goTrim (parts.getD 0 ""), name := goTrim (parts.getD 1 ""),
          image := goTrim (parts.getD 3 "") } :: parseLines rest
      else
        parseLines rest

/-- The parsing phase of getContainers: split the captured listing output on
newlines and run the row loop. -/
def parseContainers (out : String) : List Container :=
  parseLines (goSplit out "\n")

/-- getContainers (src/main.go 604-629). ok is whether the external listing
command exited successfully, out its captured output, errMsg the error text
it would propagate. On failure the output is searched for the sentinel
phrase before the error is propagated. -/
def getContainers (ok : Bool) (out errMsg : String) : Except String (List Container) :=
  if ok then .ok (parseContainers out)
  else if goContains out "No distroboxes found" then .ok []
  else .error errMsg

/-- The temporary image name of the Backup workflow, fmt.Sprintf of
"distrobox-backup-%s:%d" with the container id and unix time
(src/main.go line 169). -/
def backupTempImageName (id : String) (ts : Nat) : String :=
  "distrobox-backup-" ++ id ++ ":" ++ Nat.repr ts

/-- The temporary image name of the Edit workflow, fmt.Sprintf of
"distrobox-convert-%s:%d" with the container id and unix time
(src/main.go line 381). -/
def convertTempImageName (id : String) (ts : Nat) : String :=
  "distrobox-convert-" ++ id ++ ":" ++ Nat.repr ts

/-- The name shape the specification asserts for temporary images: prefix,
container id and unix timestamp joined by hyphens. -/
def hyphenJoinedName (pre id : String) (ts : Nat) : String :=
  String.intercalate "-" [pre, id, Nat.repr ts]

/-- The name shape the code uses: prefix and container id joined by a
hyphen, then the unix timestamp attached after a colon as an image tag. -/
def colonTagName (pre id : String) (ts : Nat) : String :=
  pre ++ "-" ++ id ++ ":" ++ Nat.repr ts

/-- The pair returned by runCommand (src/main.go 712-719), as a function of
the outcome of the underlying process: ok carries the combined output of a
zero exit, fail carries the error detail and the combined output of a
non-zero exit. -/
inductive CmdOutcome where
  | ok (output : String)
  | fail (errDetail : String) (output : String)

/-- runCommand (src/main.go 712-719): on success the combined output and no
error; on failure an empty output string and an error embedding the
executable name, the space-joined arguments, the error detail and the
captured combined output. -/
def runCommand (name : String) (args : List String) : CmdOutcome → String × Option String
  | .ok out => (out, none)
  | .fail err out =>
    ("", some ("command '" ++ name ++ " " ++ String.intercalate " " args ++
      "' failed: " ++ err ++ "\nOutput: " ++ out))

/-- One observable effect of a workflow run, in source order: an external
command invocation (runCommand or exec), a recursive directory removal
(os.RemoveAll), a send attempt on the one-shot spinner completion channel,
or a log line at one of the four levels. -/
inductive Eff where
  | cmd (exe : String) (args : List String)
  | removeDir (path : String)
  | send
  | logE (msg : String)
  | logW (msg : String)
  | logI (msg : String)
  | logS (msg : String)
deriving DecidableEq

/-- The bold ANSI code of src/main.go line 29, embedded in some log texts. -/
def colorBold : String := "\x1b[1m"

/-- The reset ANSI code of src/main.go line 21. -/
def colorReset : String := "\x1b[0m"

/-- Whether an effect is a send on the spinner completion channel. -/
def isSend : Eff → Bool
  | .send => true
  | _ => false

/-- How many sends on the spinner completion channel a trace attempts. -/
def doneSends (tr : List Eff) : Nat := tr.countP isSend

/-- Whether an effect changes state outside the process (an external command
or a directory removal), as opposed to terminal output or channel
signalling. -/
def isChange : Eff → Bool
  | .cmd _ _ => true
  | .removeDir _ => true
  | _ => false

/-- The marker phrase handleRestore scans load output for
(src/main.go line 241). -/
def loadedImageMarker : String := "Loaded image:"

/-- The scan loop of handleRestore (src/main.go 238-248): at the first line
containing the marker, split on the marker with limit 2 and, when that
yields two parts, take the trimmed second part and stop; otherwise keep
scanning. An empty result stands for the zero value of the Go variable. -/
def extractLoop : List String → String
  | [] => ""
  | line :: rest =>
    if goContains line loadedImageMarker then
      let parts := goSplitN2 line loadedImageMarker
      if parts.length = 2 then goTrim (parts.getD 1 "") else extractLoop rest
    else extractLoop rest

/-- The loaded-image extraction of handleRestore: split the load output on
newlines and run the scan loop. -/
def extractLoadedImage (out : String) : String :=
  extractLoop (goSplit out "\n")

/-- The first load-output line containing the marker phrase; stated from the
specification wording for comparison with the embedded extraction. -/
def firstMarkerLine (out : String) : Option String :=
  (goSplit out "\n").find? (fun l => goContains l loadedImageMarker)

/-- The text standing after the first occurrence of the marker phrase in a
line; stated from the specification wording. Empty when the marker does not
occur. -/
def afterFirstMarker (line : String) : String :=
  match firstSplit loadedImageMarker.toList line.toList with
  | some (_, q) => String.mk q
  | none => ""

/-- handleBackup from the temp-image naming onward (src/main.go 169-205).
rt is the container runtime executable, commitErr, saveErr and cleanupErr
the results of the three runCommand calls (some of the error text on
failure). Eff.send records each send attempt on the one-shot done channel;
at runtime the spinner goroutine exits after consuming the first one, so a
second attempt blocks forever. -/
def handleBackupRun (rt contName id backupFile : String) (ts : Nat)
    (commitErr saveErr cleanupErr : Option String) : List Eff :=
  let tempImageName := backupTempImageName id ts
  Eff.cmd rt ["commit", contName, tempImageName] ::
  match commitErr with
  | some e => [.send, .logE "Failed to commit container.", .logE e]
  | none =>
    Eff.cmd rt ["save", "-o", backupFile, tempImageName] ::
    match saveErr with
    | some _ =>
      [.send, .logE "Failed to save image to tar file.",
       .cmd rt ["rmi", tempImageName]]
    | none =>
      Eff.cmd rt ["rmi", tempImageName] ::
      (match cleanupErr with
       | some _ =>
         [.send,
          .logW ("Could not clean up temporary image '" ++ tempImageName ++
            "'. You may want to remove it manually.")]
       | none => []) ++
      [.send, .logS ("Backup for '" ++ contName ++ "' completed successfully!")]

/-- The distrobox-create call of handleRestore and what follows it
(src/main.go 302-316). The result of the rmi cleanup on success is
discarded by the source, hence the unused rmiErr parameter. -/
def restoreCreateTail (rt contName loadedImage : String) (args : List String)
    (createErr : Option String) (_rmiErr : Option String) : List Eff :=
  Eff.cmd "distrobox-create" args :: Eff.send ::
  match createErr with
  | some e =>
    [.logE ("Failed to create container '" ++ contName ++ "'."), .logE e,
     .logI ("The loaded image '" ++ loadedImage ++
       "' was kept. You can try creating the container again manually or remove the image.")]
  | none =>
    [.cmd rt ["rmi", loadedImage],
     .logS ("Container '" ++ contName ++ "' restored successfully!")]

/-- handleRestore from the image-load call onward (src/main.go 225-317).
loadRes mirrors the runCommand pair for the load call (error text, or the
captured output), contName the name typed by the user, restoreType the
selectItem result (0 for a blank line, else 1 or 2), userHome the
os.UserHomeDir result consulted only for an isolated restore, createErr the
distrobox-create result, and rmiErr the discarded result of whichever rmi
cleanup runs. -/
def handleRestoreRun (rt : String) (loadRes : Except String String)
    (contName : String) (restoreType : Nat) (userHome : Option String)
    (createErr : Option String) (rmiErr : Option String) : List Eff :=
  Eff.send ::
  match loadRes with
  | .error e => [.logE "Failed to load image from backup file.", .logE e]
  | .ok out =>
    let loadedImage := extractLoadedImage out
    if loadedImage = "" then
      [.logE "Could not determine the name of the loaded image. Aborting."]
    else
      Eff.logS ("Image '" ++ loadedImage ++ "' loaded successfully.") ::
      if contName = "" then
        [.logW "Container name cannot be empty. Aborting.",
         .cmd rt ["rmi", loadedImage]]
      else if restoreType = 0 then
        [.cmd rt ["rmi", loadedImage]]
      else
        if restoreType = 2 then
          match userHome with
          | none =>
            [.send,
             .logE "Could not determine user home directory. Aborting isolated restore.",
             .cmd rt ["rmi", loadedImage]]
          | some h =>
            let isolatedHomePath := h ++ "/.local/share/distrobox/homes/" ++ contName
            let args := ["--name", contName, "--image", loadedImage,
                         "--home", isolatedHomePath]
            Eff.logI ("Creating new " ++ colorBold ++ "ISOLATED" ++ colorReset ++
              " container '" ++ contName ++ "'...") ::
            Eff.logI ("Container home will be at: " ++ isolatedHomePath) ::
            restoreCreateTail rt contName loadedImage args createErr rmiErr
        else
          let args := ["--name", contName, "--image", loadedImage]
          Eff.logI ("Creating new " ++ colorBold ++ "STANDARD" ++ colorReset ++
            " container '" ++ contName ++ "'...") ::
          restoreCreateTail rt contName loadedImage args createErr rmiErr

/-- getIsolatedHomePath (src/main.go 581-587): the deterministic isolated
home path under the user home, or the UserHomeDir error. -/
def getIsolatedHomePath (userHome : Option String) (contName : String) :
    Except String String :=
  match userHome with
  | none => .error "could not determine user home directory"
  | some h => .ok (h ++ "/.local/share/distrobox/homes/" ++ contName)

/-- handleEdit from the classification onward (src/main.go 334-429). isIso
and isoPath mirror the isContainerIsolated result, c1 the first
confirmation, c2 the stronger second confirmation consulted only when the
source is isolated, stopErr, commitErr, rmErr and createErr the results of
the four external steps, removeDirErr the os.RemoveAll result. The
getIsolatedHomePath error for the new home is discarded by the source, an
empty path standing in (src/main.go line 403), and so is the result of the
final rmi cleanup (line 425). -/
def handleEditRun (rt contName id : String) (isIso : Bool) (isoPath : String)
    (c1 c2 : Bool) (ts : Nat) (userHome : Option String)
    (stopErr commitErr rmErr createErr removeDirErr : Option String) : List Eff :=
  let prompt :=
    if isIso then
      "Container '" ++ contName ++ "' is currently ISOLATED. Convert to STANDARD?"
    else
      "Container '" ++ contName ++ "' is currently STANDARD. Convert to ISOLATED?"
  Eff.logI prompt ::
  if !c1 then [.logI "Edit cancelled."]
  else
    (if isIso then
      [Eff.logW "Converting to STANDARD will PERMANENTLY DELETE the isolated home directory:",
       Eff.logW isoPath,
       Eff.logW "All data inside will be lost. The container will use your host's home directory instead."]
     else []) ++
    if isIso && !c2 then [.logI "Edit cancelled."]
    else
      Eff.cmd rt ["stop", contName] ::
      match stopErr with
      | some _ =>
        [.send, .logE ("Failed to stop container '" ++ contName ++ "'. Aborting.")]
      | none =>
        let tempImageName := convertTempImageName id ts
        Eff.cmd rt ["commit", contName, tempImageName] ::
        match commitErr with
        | some _ =>
          [.send, .logE "Failed to commit container to a temporary image. Aborting."]
        | none =>
          Eff.cmd "distrobox-rm" [contName, "--force"] ::
          match rmErr with
          | some _ =>
            [.send,
             .logE "Failed to remove the old container. You may need to clean up manually. Aborting.",
             .cmd rt ["rmi", tempImageName]]
          | none =>
            let targetType := if isIso then "STANDARD" else "ISOLATED"
            let args := ["--name", contName, "--image", tempImageName] ++
              (if targetType = "ISOLATED" then
                ["--home",
                 match getIsolatedHomePath userHome contName with
                 | .ok p => p
                 | .error _ => ""]
               else [])
            Eff.cmd "distrobox-create" args ::
            match createErr with
            | some _ =>
              [.send,
               .logE ("Failed to create the new " ++ targetType ++ " container."),
               .logE "The temporary image and data have been kept for manual recovery.",
               .logI ("Temporary image: " ++ tempImageName)]
            | none =>
              (if isIso then
                Eff.removeDir isoPath ::
                (match removeDirErr with
                 | some _ =>
                   [Eff.logW ("Failed to delete the old isolated home directory: " ++ isoPath),
                    Eff.logW "You may want to remove it manually."]
                 | none => [])
               else []) ++
              Eff.cmd rt ["rmi", tempImageName] ::
              [.send,
               .logS ("Container '" ++ contName ++ "' successfully converted to " ++
                 targetType ++ "!")]

/-! Helper lemmas. -/

/-- A row whose pipe split has fewer than four fields adds no container. -/
theorem parseLines_cons_short (line : String) (rest : List String)
    (h : (goSplit line "|").length < 4) :
    parseLines (line :: rest) = parseLines rest := by
  rw [parseLines]
  split
  · rfl
  · exact if_neg (by omega)

/-- Dropping a row with fewer than four fields anywhere in the input leaves
the parse unchanged. -/
theorem parseLines_skip_short (pre post : List String) (line : String)
    (h : (goSplit line "|").length < 4) :
    parseLines (pre ++ line :: post) = parseLines (pre ++ post) := by
  induction pre with
  | nil => simpa using parseLines_cons_short line post h
  | cons p pre ih =>
    rw [List.cons_append, List.cons_append, parseLines, parseLines]
    split
    · exact ih
    · simp only [ih]

/-- When the substring test succeeds, the underlying first-occurrence split
yields a pair. -/
theorem goContains_firstSplit {s sub : String} (h : goContains s sub = true) :
    ∃ p q, firstSplit sub.toList s.toList = some (p, q) := by
  unfold goContains at h
  cases hfs : firstSplit sub.toList s.toList with
  | none => rw [hfs] at h; simp at h
  | some pq =>
    obtain ⟨p, q⟩ := pq
    exact ⟨p, q, rfl⟩

/-- find? on a cons, written as an if for rewriting. -/
theorem find?_consIf (p : α → Bool) (a : α) (l : List α) :
    List.find? p (a :: l) = if p a then some a else List.find? p l := by
  by_cases h : p a = true
  · rw [List.find?_cons_of_pos _ h, if_pos h]
  · rw [List.find?_cons_of_neg _ (by simpa using h), if_neg (by simpa using h)]

/-- The scan loop agrees with the specification reading on any line list:
at the first line containing the marker it returns the trimmed text after
the first marker occurrence, and with no such line it returns the empty
string. -/
theorem extractLoop_spec (lines : List String) :
    (∀ l, lines.find? (fun x => goContains x loadedImageMarker) = some l →
      extractLoop lines = goTrim (afterFirstMarker l)) ∧
    (lines.find? (fun x => goContains x loadedImageMarker) = none →
      extractLoop lines = "") := by
  induction lines with
  | nil => exact ⟨by intro l h; simp at h, fun _ => rfl⟩
  | cons line rest ih =>
    by_cases hc : goContains line loadedImageMarker = true
    · constructor
      · intro l hl
        rw [find?_consIf, if_pos hc] at hl
        cases Option.some.inj hl
        obtain ⟨p, q, hpq⟩ := goContains_firstSplit hc
        have hpq' : firstSplit loadedImageMarker.data line.data = some (p, q) := hpq
        rw [extractLoop, if_pos hc]
        simp only [goSplitN2, hpq]
        simp [afterFirstMarker, hpq, hpq']
      · intro hl
        rw [find?_consIf, if_pos hc] at hl
        exact absurd hl (by simp)
    · have hc' : goContains line loadedImageMarker = false := by simpa using hc
      constructor
      · intro l hl
        rw [find?_consIf, if_neg (by simp [hc'])] at hl
        rw [extractLoop, if_neg (by simp [hc'])]
        exact ih.1 l hl
      · intro hl
        rw [find?_consIf, if_neg (by simp [hc'])] at hl
        rw [extractLoop, if_neg (by simp [hc'])]
        exact ih.2 hl

/-! Claim theorems. -/

/-- C1, counterexample: on the rows given by the claim, the registry parse
does not yield exactly one container. The separator row of four dashes has
four pipe-delimited fields and contains neither header token, so it is
parsed as a container as well. -/
theorem registry_parse_counterexample :
    parseContainers "ID|NAME|STATUS|IMAGE\n--|--|--|--\n1|dev|Up|img:latest" ≠
      [{ name := "dev", id := "1", image := "img:latest" }] := by decide

/-- C1, amended: on the rows given by the claim the parse yields exactly
two containers, the dash separator row parsed as a container of dashes
followed by the real row; and any row with fewer than four pipe-delimited
fields is silently skipped, wherever it stands in the input. -/
theorem registry_parse_amended :
    parseContainers "ID|NAME|STATUS|IMAGE\n--|--|--|--\n1|dev|Up|img:latest" =
      [{ name := "--", id := "--", image := "--" },
       { name := "dev", id := "1", image := "img:latest" }] ∧
    ∀ pre post line, (goSplit line "|").length < 4 →
      parseLines (pre ++ line :: post) = parseLines (pre ++ post) :=
  ⟨by decide, parseLines_skip_short⟩

/-- C1, witness: a concrete two-field row is skipped. -/
theorem registry_parse_amended_witness :
    parseLines ["a|b"] = parseLines [] :=
  registry_parse_amended.2 [] [] "a|b" (by decide)

/-- C2: the number of send attempts on the one-shot spinner channel, per
Backup path. Commit failure, save failure and full success each send once,
but the path where the final temp-image cleanup fails sends twice: the
warning branch sends and then falls through to the unconditional send. At
runtime the second attempt on the unbuffered channel blocks forever, since
the spinner goroutine exits after the first receive. -/
theorem backup_done_signal_counts (rt contName id file : String) (ts : Nat)
    (e1 e2 e3 : String) :
    doneSends (handleBackupRun rt contName id file ts (some e1) none none) = 1 ∧
    doneSends (handleBackupRun rt contName id file ts none (some e2) none) = 1 ∧
    doneSends (handleBackupRun rt contName id file ts none none none) = 1 ∧
    doneSends (handleBackupRun rt contName id file ts none none (some e3)) = 2 := by
  refine ⟨?_, ?_, ?_, ?_⟩ <;>
    simp [handleBackupRun, doneSends, isSend, List.countP_cons, List.countP_nil,
      List.countP_append]

/-- C3, counterexample: the generated temp-image names do not join the
prefix, container id and timestamp with hyphens; the timestamp follows a
colon, as an image tag. -/
theorem tempimage_name_counterexample :
    backupTempImageName "abc" 5 ≠ hyphenJoinedName "distrobox-backup" "abc" 5 ∧
    backupTempImageName "abc" 5 = "distrobox-backup-abc:5" ∧
    hyphenJoinedName "distrobox-backup" "abc" 5 = "distrobox-backup-abc-5" ∧
    convertTempImageName "abc" 5 ≠ hyphenJoinedName "distrobox-convert" "abc" 5 := by
  decide

/-- C3, amended: for every container id and timestamp, both workflows
generate the temp-image name as the prefix and the container id joined by a
hyphen with the unix timestamp appended after a colon as an image tag, with
prefix distrobox-backup for Backup and distrobox-convert for Edit. -/
theorem tempimage_name_amended (id : String) (ts : Nat) :
    backupTempImageName id ts = colonTagName "distrobox-backup" id ts ∧
    convertTempImageName id ts = colonTagName "distrobox-convert" id ts :=
  ⟨rfl, rfl⟩

/-- C4: when the Edit workflow passes both confirmations, stop, commit and
removal succeed and replacement creation fails, the trace contains no rmi
of the temp image and no directory removal, reports the temp-image
identifier in its output, and did remove the original container. -/
theorem edit_create_failure_preserves (rt contName id : String) (isIso : Bool)
    (isoPath : String) (ts : Nat) (userHome : Option String) (e : String)
    (rdErr : Option String) (hrt : rt = "podman" ∨ rt = "docker") :
    Eff.cmd rt ["rmi", convertTempImageName id ts] ∉
      handleEditRun rt contName id isIso isoPath true true ts userHome none none none (some e) rdErr ∧
    (∀ p, Eff.removeDir p ∉
      handleEditRun rt contName id isIso isoPath true true ts userHome none none none (some e) rdErr) ∧
    Eff.logI ("Temporary image: " ++ convertTempImageName id ts) ∈
      handleEditRun rt contName id isIso isoPath true true ts userHome none none none (some e) rdErr ∧
    Eff.cmd "distrobox-rm" [contName, "--force"] ∈
      handleEditRun rt contName id isIso isoPath true true ts userHome none none none (some e) rdErr := by
  rcases hrt with h | h <;> subst h <;> cases isIso <;>
    simp [handleEditRun, convertTempImageName]

/-- C4, witness: concrete Edit run failing at replacement creation. -/
theorem edit_create_failure_preserves_witness :
    Eff.logI ("Temporary image: " ++ convertTempImageName "1a2b" 7) ∈
      handleEditRun "podman" "dev" "1a2b" true "/home/u/.local/share/distrobox/homes/dev"
        true true 7 (some "/home/u") none none none (some "create failed") none ∧
    Eff.cmd "podman" ["rmi", convertTempImageName "1a2b" 7] ∉
      handleEditRun "podman" "dev" "1a2b" true "/home/u/.local/share/distrobox/homes/dev"
        true true 7 (some "/home/u") none none none (some "create failed") none :=
  ⟨(edit_create_failure_preserves "podman" "dev" "1a2b" true
      "/home/u/.local/share/distrobox/homes/dev" 7 (some "/home/u") "create failed" none
      (Or.inl rfl)).2.2.1,
   (edit_create_failure_preserves "podman" "dev" "1a2b" true
      "/home/u/.local/share/distrobox/homes/dev" 7 (some "/home/u") "create failed" none
      (Or.inl rfl)).1⟩

/-- C5: editing an isolated container performs no external command and no
filesystem change when the first confirmation is declined, likewise when
the second, stronger confirmation is declined; with both confirmations
given the conversion proceeds, starting with the stop command. -/
theorem edit_double_confirmation (rt contName id isoPath : String) (c2 : Bool)
    (ts : Nat) (userHome : Option String) (r1 r2 r3 r4 r5 : Option String) :
    (handleEditRun rt contName id true isoPath false c2 ts userHome r1 r2 r3 r4 r5).filter isChange = [] ∧
    (handleEditRun rt contName id true isoPath true false ts userHome r1 r2 r3 r4 r5).filter isChange = [] ∧
    Eff.cmd rt ["stop", contName] ∈
      handleEditRun rt contName id true isoPath true true ts userHome r1 r2 r3 r4 r5 := by
  refine ⟨?_, ?_, ?_⟩ <;> simp [handleEditRun, isChange, List.filter]

/-- C6: whenever some load-output line contains the marker, extraction
returns the trimmed text after the first marker occurrence in the first
such line; when no line contains it, extraction is empty and the Restore
workflow aborts right after reporting the failure, with no further
effects. -/
theorem restore_marker_extraction (out : String) :
    (∀ l, firstMarkerLine out = some l →
      extractLoadedImage out = goTrim (afterFirstMarker l)) ∧
    (firstMarkerLine out = none →
      extractLoadedImage out = "" ∧
      ∀ rt ctn rty uh ce r, handleRestoreRun rt (.ok out) ctn rty uh ce r =
        [Eff.send, Eff.logE "Could not determine the name of the loaded image. Aborting."]) := by
  constructor
  · intro l hl
    exact (extractLoop_spec (goSplit out "\n")).1 l hl
  · intro h
    have he : extractLoadedImage out = "" := (extractLoop_spec (goSplit out "\n")).2 h
    refine ⟨he, ?_⟩
    intro rt ctn rty uh ce r
    simp [handleRestoreRun, he]

/-- C6, witness: a marker line among unrelated log lines extracts exactly
the image reference. -/
theorem restore_marker_extraction_witness :
    extractLoadedImage "step one\nLoaded image: myimg:123\ndone" = "myimg:123" := by
  have h := (restore_marker_extraction "step one\nLoaded image: myimg:123\ndone").1
    "Loaded image: myimg:123" (by decide)
  rw [h]; decide

/-- C7: when the listing command fails, a captured output containing the
sentinel phrase yields an empty catalog with no error, and any other output
propagates the error. -/
theorem registry_empty_sentinel (out errMsg : String) :
    (goContains out "No distroboxes found" = true →
      getContainers false out errMsg = .ok []) ∧
    (goContains out "No distroboxes found" = false →
      getContainers false out errMsg = .error errMsg) := by
  constructor <;> intro h <;> simp [getContainers, h]

/-- C7, witness: both failure shapes at concrete outputs. -/
theorem registry_empty_sentinel_witness :
    getContainers false "Error: No distroboxes found" "listing failed" = .ok [] ∧
    getContainers false "permission denied" "listing failed" = .error "listing failed" :=
  ⟨(registry_empty_sentinel "Error: No distroboxes found" "listing failed").1 (by decide),
   (registry_empty_sentinel "permission denied" "listing failed").2 (by decide)⟩

/-- C8: on every Restore path that reaches the creation command, a failed
creation leaves the loaded image in place with its identifier reported in
the output, and a successful creation removes the loaded image and reports
success, the discarded result of that removal never changing the trace.
The paths reaching creation are the Standard restore (selection 1) and the
Isolated restore (selection 2) with a resolvable user home. -/
theorem restore_create_failure_keeps_image (rt out ctn : String)
    (uh : Option String) (e : String) (r : Option String) (rty : Nat)
    (himg : extractLoadedImage out ≠ "") (hn : ctn ≠ "")
    (hpath : rty = 1 ∨ (rty = 2 ∧ uh ≠ none)) :
    Eff.cmd rt ["rmi", extractLoadedImage out] ∉
      handleRestoreRun rt (.ok out) ctn rty uh (some e) r ∧
    Eff.logI ("The loaded image '" ++ extractLoadedImage out ++
      "' was kept. You can try creating the container again manually or remove the image.") ∈
      handleRestoreRun rt (.ok out) ctn rty uh (some e) r ∧
    Eff.cmd rt ["rmi", extractLoadedImage out] ∈
      handleRestoreRun rt (.ok out) ctn rty uh none r ∧
    Eff.logS ("Container '" ++ ctn ++ "' restored successfully!") ∈
      handleRestoreRun rt (.ok out) ctn rty uh none r ∧
    (∀ ce ra rb, handleRestoreRun rt (.ok out) ctn rty uh ce ra =
      handleRestoreRun rt (.ok out) ctn rty uh ce rb) := by
  rcases hpath with rfl | ⟨rfl, hne⟩
  · refine ⟨?_, ?_, ?_, ?_, fun ce ra rb => rfl⟩ <;>
      simp [handleRestoreRun, restoreCreateTail, himg, hn]
  · obtain ⟨h, rfl⟩ : ∃ h, uh = some h := by
      cases uh with
      | none => exact absurd rfl hne
      | some h => exact ⟨h, rfl⟩
    refine ⟨?_, ?_, ?_, ?_, fun ce ra rb => rfl⟩ <;>
      simp [handleRestoreRun, restoreCreateTail, himg, hn]

/-- C8, witness: concrete Restore runs with creation failing on the
Standard path, and failing then succeeding on the Isolated path with a
resolvable home. -/
theorem restore_create_failure_keeps_image_witness :
    Eff.cmd "podman" ["rmi", extractLoadedImage "Loaded image: myimg:123"] ∉
      handleRestoreRun "podman" (.ok "Loaded image: myimg:123") "box" 1 none (some "boom") none ∧
    Eff.cmd "podman" ["rmi", extractLoadedImage "Loaded image: myimg:123"] ∉
      handleRestoreRun "podman" (.ok "Loaded image: myimg:123") "box" 2 (some "/home/u") (some "boom") none ∧
    Eff.cmd "podman" ["rmi", extractLoadedImage "Loaded image: myimg:123"] ∈
      handleRestoreRun "podman" (.ok "Loaded image: myimg:123") "box" 2 (some "/home/u") none none :=
  ⟨(restore_create_failure_keeps_image "podman" "Loaded image: myimg:123" "box" none "boom" none 1
      (by decide) (by decide) (Or.inl rfl)).1,
   (restore_create_failure_keeps_image "podman" "Loaded image: myimg:123" "box" (some "/home/u")
      "boom" none 2 (by decide) (by decide) (Or.inr ⟨rfl, by decide⟩)).1,
   (restore_create_failure_keeps_image "podman" "Loaded image: myimg:123" "box" (some "/home/u")
      "boom" none 2 (by decide) (by decide) (Or.inr ⟨rfl, by decide⟩)).2.2.1⟩

/-- C9: a failing command returns an empty output string; the captured
combined output appears only inside the returned error message, after the
executable name and the space-joined arguments. -/
theorem runCommand_failure_empty_output (name : String) (args : List String)
    (err out : String) :
    (runCommand name args (.fail err out)).1 = "" ∧
    (runCommand name args (.fail err out)).2 =
      some ("command '" ++ name ++ " " ++ String.intercalate " " args ++
        "' failed: " ++ err ++ "\nOutput: " ++ out) :=
  ⟨rfl, rfl⟩

/-- C10: after a successful load, an empty container name, a declined
isolation selection, and a failed home-directory lookup for an isolated
restore each remove the loaded image before aborting, while the
creation-failure path does not. -/
theorem restore_early_abort_cleanup (rt out ctn : String) (rty : Nat)
    (uh : Option String) (ce r : Option String) (e : String)
    (himg : extractLoadedImage out ≠ "") (hn : ctn ≠ "") :
    Eff.cmd rt ["rmi", extractLoadedImage out] ∈
      handleRestoreRun rt (.ok out) "" rty uh ce r ∧
    Eff.cmd rt ["rmi", extractLoadedImage out] ∈
      handleRestoreRun rt (.ok out) ctn 0 uh ce r ∧
    Eff.cmd rt ["rmi", extractLoadedImage out] ∈
      handleRestoreRun rt (.ok out) ctn 2 none ce r ∧
    Eff.cmd rt ["rmi", extractLoadedImage out] ∉
      handleRestoreRun rt (.ok out) ctn 1 uh (some e) r := by
  refine ⟨?_, ?_, ?_, ?_⟩ <;> simp [handleRestoreRun, restoreCreateTail, himg, hn]

/-- C10, witness: concrete empty-name and missing-home Restore runs both
remove the loaded image. -/
theorem restore_early_abort_cleanup_witness :
    Eff.cmd "podman" ["rmi", extractLoadedImage "Loaded image: myimg:123"] ∈
      handleRestoreRun "podman" (.ok "Loaded image: myimg:123") "" 1 none none none ∧
    Eff.cmd "podman" ["rmi", extractLoadedImage "Loaded image: myimg:123"] ∈
      handleRestoreRun "podman" (.ok "Loaded image: myimg:123") "box" 2 none none none :=
  ⟨(restore_early_abort_cleanup "podman" "Loaded image: myimg:123" "box" 1 none none none "e"
      (by decide) (by decide)).1,
   (restore_early_abort_cleanup "podman" "Loaded image: myimg:123" "box" 1 none none none "e"
      (by decide) (by decide)).2.2.1⟩

end DBX
